import Mathlib

/-!
Verification of the wallet ledger and booking-acceptance core of the
arabi-rent-home repository.

The embedding below translates the TypeScript source into Lean:
* `WalletContext` (contexts/WalletContext.tsx): `deductCommission`,
  `rechargeWallet`, `checkAccountStatus`.
* `BookingManagement` (components/BookingManagement.tsx):
  `handleBookingAction`, `confirmBookingAcceptance`, and the
  rental-amount resolution of `fetchBookings`.
* `WalletManagement` (components/WalletManagement.tsx): `handleRecharge`.
* `AuthContext` (contexts/AuthContext.tsx): the cached `userData` record.

Currency amounts are modelled as rationals (the source uses JS numbers for
exact decimal constants such as 0.025); timestamps as naturals.  The remote
document store is modelled by explicit state passing: `WalletState` holds the
landlord account document plus the append-only transaction log, `SysState`
adds the booking store.  Store writes that may fail are modelled by a
`writeOk` boolean parameter; a failed write raises `WriteFailure` (the
partial-commit gap between the two store writes is not relevant to any claim
and a failed operation is modelled as leaving the state unchanged).
-/

namespace ArabiRentHome

/-- Roles from `AuthContext.UserData` (the spec calls the `owner` role
`landlord`). -/
inductive Role
  | owner
  | renter
deriving DecidableEq

/-- Account status values stored on the user document. -/
inductive AccountStatus
  | active
  | suspended
deriving DecidableEq

/-- The wallet fields of a landlord user document
(`walletBalance`, `accountStatus`, `lastTransactionDate`). -/
structure Account where
  walletBalance : ℚ
  accountStatus : AccountStatus
  lastTransactionDate : ℕ
deriving DecidableEq

/-- Transaction kinds from the `WalletTransaction` interface. -/
inductive TxType
  | commission
  | payment
  | recharge
deriving DecidableEq

/-- A document in the `transactions` collection (`WalletTransaction`).
The generated `id` is not modelled; the Arabic UI description strings are
carried as opaque `String` data. -/
structure WalletTransaction where
  type : TxType
  amount : ℚ
  description : String
  bookingId : Option String
  propertyId : Option String
  timestamp : ℕ
  balanceAfter : ℚ
deriving DecidableEq

/-- The ledger store for one landlord: the account document plus the
append-only `transactions` collection (oldest first; `addDoc` appends). -/
structure WalletState where
  account : Account
  transactions : List WalletTransaction
deriving DecidableEq

/-- The cached `userData` record held by `AuthContext` (wallet fields are
optional: renters do not have them). -/
structure UserData where
  role : Role
  walletBalance : Option ℚ
  accountStatus : Option AccountStatus
deriving DecidableEq

/-- The authentication context seen by the wallet operations:
`currentUser` (uid when signed in) and the cached `userData`. -/
structure Session where
  currentUser : Option String
  userData : Option UserData
deriving DecidableEq

/-- The guard `!currentUser || userData?.role !== 'owner'` is false, i.e. the
caller is a signed-in landlord. -/
def isOwnerSession (sess : Session) : Bool :=
  sess.currentUser.isSome &&
    decide (sess.userData.map UserData.role = some Role.owner)

/-- `userData.walletBalance || 0` — the cached balance, with the JS falsy
fallback to 0 (absent and 0 both yield 0). -/
def cachedBalance (sess : Session) : ℚ :=
  (sess.userData.bind UserData.walletBalance).getD 0

/-- `userData?.accountStatus === 'suspended'` on the cached record. -/
def cachedSuspended (sess : Session) : Bool :=
  decide (sess.userData.bind UserData.accountStatus = some AccountStatus.suspended)

/-- After a wallet mutation the UI forces a page reload and `AuthContext`
re-fetches the user document (`fetchUserData`), so the cached wallet fields
again mirror the stored account.  `syncSession` models that re-fetch. -/
def syncSession (sess : Session) (s : WalletState) : Session :=
  { sess with
    userData := sess.userData.map fun ud =>
      { ud with
        walletBalance := some s.account.walletBalance
        accountStatus := some s.account.accountStatus } }

/-- Replace only the cached `accountStatus` field (used to state that
`checkAccountStatus` does not read the cached status). -/
def setCachedStatus (sess : Session) (c : Option AccountStatus) : Session :=
  { sess with
    userData := sess.userData.map fun ud => { ud with accountStatus := c } }

/-- `const commissionRate = 0.025; // 2.5%`. -/
def commissionRate : ℚ := 0.025

/-- Store-write failures surfaced by the wallet operations. -/
inductive WalletError
  | WriteFailure
deriving DecidableEq

/-- `deductCommission(bookingId, propertyId, rentalAmount)` from
`WalletContext`.  Not a landlord session: silent resolved no-op.  Otherwise
compute `commissionAmount`, `newBalance` from the cached balance, append the
commission transaction (with `balanceAfter = newBalance`) and update the
account, suspending it when `newBalance <= -100`; a store failure throws. -/
def deductCommission (sess : Session) (writeOk : Bool)
    (bookingId propertyId : String) (rentalAmount : ℚ) (now : ℕ)
    (s : WalletState) : Except WalletError WalletState :=
  if isOwnerSession sess = false then .ok s
  else
    let commissionAmount := rentalAmount * commissionRate
    let currentBalance := cachedBalance sess
    let newBalance := currentBalance - commissionAmount
    if writeOk = false then .error .WriteFailure
    else .ok
      { account :=
          { walletBalance := newBalance
            accountStatus :=
              if newBalance ≤ -100 then AccountStatus.suspended
              else s.account.accountStatus
            lastTransactionDate := now }
        transactions := s.transactions ++
          [{ type := TxType.commission
             amount := -commissionAmount
             description := "commission"
             bookingId := some bookingId
             propertyId := some propertyId
             timestamp := now
             balanceAfter := newBalance }] }

/-- `rechargeWallet(amount, description)` from `WalletContext`.  Note: the
function itself performs no validation of `amount`; it appends the recharge
transaction and updates the account, reactivating it when `newBalance > 0`. -/
def rechargeWallet (sess : Session) (writeOk : Bool) (amount : ℚ)
    (description : String) (now : ℕ) (s : WalletState) :
    Except WalletError WalletState :=
  if isOwnerSession sess = false then .ok s
  else
    let newBalance := cachedBalance sess + amount
    if writeOk = false then .error .WriteFailure
    else .ok
      { account :=
          { walletBalance := newBalance
            accountStatus :=
              if newBalance > 0 then AccountStatus.active
              else s.account.accountStatus
            lastTransactionDate := now }
        transactions := s.transactions ++
          [{ type := TxType.recharge
             amount := amount
             description := description
             bookingId := none
             propertyId := none
             timestamp := now
             balanceAfter := newBalance }] }

/-- `checkAccountStatus()` from `WalletContext`: non-landlord sessions get
`true`; otherwise the user document is re-read from the store
(`storedAccount` is that fresh read; `none` models a missing document, which
also yields `true`). -/
def checkAccountStatus (sess : Session) (storedAccount : Option Account) :
    Bool :=
  if isOwnerSession sess = false then true
  else
    match storedAccount with
    | some a => decide (a.accountStatus = AccountStatus.active)
    | none => true

/-- N consecutive `deductCommission` calls (no other operation interleaved):
after each successful call the session is re-synchronised with the stored
account, modelling the forced reload between operations.  The booking and
property ids do not affect balances and are fixed placeholders. -/
def deductCommissionSeq (now : ℕ) :
    Session → WalletState → List ℚ → Except WalletError WalletState
  | _, s, [] => .ok s
  | sess, s, r :: rs =>
    match deductCommission sess true "bookingId" "propertyId" r now s with
    | .ok s1 => deductCommissionSeq now (syncSession sess s1) s1 rs
    | .error e => .error e

/-- Booking status values. -/
inductive BookingStatus
  | pending
  | accepted
  | rejected
deriving DecidableEq

/-- A booking as held by `BookingManagement` after `fetchBookings`:
`rentalAmount` is the resolved optional field (`undefined` before
resolution, otherwise the linked monthly price with fallback 0). -/
structure Booking where
  id : String
  renterId : String
  propertyId : String
  status : BookingStatus
  rentalAmount : Option ℚ
deriving DecidableEq

/-- The slice of a property document the acceptance flow reads
(`pricePerMonth` may be absent). -/
structure Property where
  pricePerMonth : Option ℚ
deriving DecidableEq

/-- `propertyData?.pricePerMonth || 0` from `fetchBookings`: a deleted
property (`none`) or an absent price resolves to 0 (a stored price of 0 is
falsy in JS and also yields 0, the same value). -/
def resolveRentalAmount (propertyData : Option Property) : ℚ :=
  match propertyData with
  | none => 0
  | some p =>
    match p.pricePerMonth with
    | none => 0
    | some price => price

/-- JS truthiness of the optional numeric `booking.rentalAmount`:
`undefined` and 0 are falsy. -/
def truthyAmount : Option ℚ → Bool
  | none => false
  | some x => decide (x ≠ 0)

/-- The system state the booking protocol acts on: the landlord wallet
ledger plus the booking store. -/
structure SysState where
  wallet : WalletState
  bookings : List Booking
deriving DecidableEq

/-- `updateDoc(doc(db, 'bookings', bookingId), { status })`. -/
def setBookingStatus (bs : List Booking) (bookingId : String)
    (st : BookingStatus) : List Booking :=
  bs.map fun b => if b.id == bookingId then { b with status := st } else b

/-- The `action` argument of `handleBookingAction`. -/
inductive BookingAction
  | accepted
  | rejected
deriving DecidableEq

/-- The booking status an action writes. -/
def BookingAction.toStatus : BookingAction → BookingStatus
  | .accepted => BookingStatus.accepted
  | .rejected => BookingStatus.rejected

/-- Outcomes of `handleBookingAction`. -/
inductive BookingActionResult
  | suspendedAbort
  | commissionDialog (b : Booking)
  | updated
  | updateError
deriving DecidableEq

/-- `handleBookingAction(bookingId, action)` from `BookingManagement`.
For `accepted` it first consults `checkAccountStatus` (a fresh store read of
the account, here the wallet account of the state) and the cached status;
when the account is healthy and the booking has a truthy rental amount it
only opens the commission dialog (no mutation).  Every other path writes the
status directly; `bookingWriteOk` models the `updateDoc` outcome. -/
def handleBookingAction (sess : Session) (bookingWriteOk : Bool)
    (st : SysState) (bookingId : String) (action : BookingAction) :
    SysState × BookingActionResult :=
  let booking := st.bookings.find? fun b => b.id == bookingId
  let direct : SysState × BookingActionResult :=
    if bookingWriteOk then
      ({ st with
          bookings := setBookingStatus st.bookings bookingId action.toStatus },
        BookingActionResult.updated)
    else (st, BookingActionResult.updateError)
  match action with
  | .accepted =>
    let isAccountActive := checkAccountStatus sess (some st.wallet.account)
    if !isAccountActive || cachedSuspended sess then
      (st, BookingActionResult.suspendedAbort)
    else
      match booking with
      | some b =>
        if truthyAmount b.rentalAmount then
          (st, BookingActionResult.commissionDialog b)
        else direct
      | none => direct
  | .rejected => direct

/-- Outcomes of `confirmBookingAcceptance`. -/
inductive ConfirmResult
  | noSelection
  | acceptedOk
  | errorCaught
deriving DecidableEq

/-- `confirmBookingAcceptance()` from `BookingManagement`: with a selected
booking, first `deductCommission` when the rental amount is truthy, then
the booking status write; any thrown error is caught, leaving whatever had
already been written (a failed deduction leaves everything unchanged; a
failed booking write after a successful deduction keeps the wallet
mutation). -/
def confirmBookingAcceptance (sess : Session)
    (walletWriteOk bookingWriteOk : Bool) (st : SysState)
    (selectedBooking : Option Booking) (now : ℕ) :
    SysState × ConfirmResult :=
  match selectedBooking with
  | none => (st, ConfirmResult.noSelection)
  | some sb =>
    let step : Except WalletError WalletState :=
      if truthyAmount sb.rentalAmount then
        deductCommission sess walletWriteOk sb.id sb.propertyId
          (sb.rentalAmount.getD 0) now st.wallet
      else .ok st.wallet
    match step with
    | .error _ => (st, ConfirmResult.errorCaught)
    | .ok w =>
      if bookingWriteOk then
        ({ wallet := w
           bookings := setBookingStatus st.bookings sb.id BookingStatus.accepted },
          ConfirmResult.acceptedOk)
      else ({ st with wallet := w }, ConfirmResult.errorCaught)

/-- Outcomes of the `handleRecharge` UI flow. -/
inductive RechargeUIResult
  | invalidAmount
  | success (s : WalletState)
  | failure
deriving DecidableEq

/-- `handleRecharge()` from `WalletManagement`: `parseFloat` of the input is
modelled as `Option` (`none` for NaN); `!amount || amount <= 0` rejects the
input with an error toast before any call to `rechargeWallet`. -/
def handleRecharge (sess : Session) (writeOk : Bool) (parsed : Option ℚ)
    (now : ℕ) (s : WalletState) : RechargeUIResult :=
  match parsed with
  | none => RechargeUIResult.invalidAmount
  | some amount =>
    if amount ≤ 0 then RechargeUIResult.invalidAmount
    else
      match rechargeWallet sess writeOk amount "recharge" now s with
      | .ok s1 => RechargeUIResult.success s1
      | .error _ => RechargeUIResult.failure

/-- Fixture: a signed-in landlord whose cached record shows balance 0 and an
active account. -/
def sessionA : Session :=
  ⟨some "landlord", some ⟨Role.owner, some 0, some AccountStatus.active⟩⟩

/-- Fixture: the stored ledger matching `sessionA` — balance 0, active, no
transactions yet. -/
def walletA : WalletState := ⟨⟨0, AccountStatus.active, 0⟩, []⟩

/-- Fixture: a signed-in renter (no wallet fields). -/
def sessionR : Session := ⟨some "renter1", some ⟨Role.renter, none, none⟩⟩

/-- Fixture: a pending booking whose linked property costs 4000 per month. -/
def bookingA : Booking := ⟨"bk1", "renter1", "pr1", BookingStatus.pending, some 4000⟩

/-- Fixture: the system state of `sessionA` with one pending booking. -/
def sysA : SysState := ⟨walletA, [bookingA]⟩

/-- Fixture: a signed-in landlord whose account is suspended at -103000. -/
def sessionS : Session :=
  ⟨some "landlord", some ⟨Role.owner, some (-103000), some AccountStatus.suspended⟩⟩

/-- Fixture: the stored ledger matching `sessionS`. -/
def walletS : WalletState := ⟨⟨-103000, AccountStatus.suspended, 8⟩, []⟩

/-- Fixture: the system state of `sessionS` with one pending booking. -/
def sysS : SysState := ⟨walletS, [bookingA]⟩

example :
    deductCommission ⟨some "u1", some ⟨Role.owner, some 0, some AccountStatus.active⟩⟩
        true "b" "p" 4000 7 ⟨⟨0, AccountStatus.active, 0⟩, []⟩
      = .ok ⟨⟨-100, AccountStatus.suspended, 7⟩,
          [⟨TxType.commission, -100, "commission", some "b", some "p", 7, -100⟩]⟩ := by
  norm_num [deductCommission, isOwnerSession, cachedBalance, commissionRate]

example :
    rechargeWallet ⟨some "u1", some ⟨Role.owner, some (-100), some AccountStatus.suspended⟩⟩
        true 100 "d" 9 ⟨⟨-100, AccountStatus.suspended, 5⟩, []⟩
      = .ok ⟨⟨0, AccountStatus.suspended, 9⟩,
          [⟨TxType.recharge, 100, "d", none, none, 9, 0⟩]⟩ := by
  norm_num [rechargeWallet, isOwnerSession, cachedBalance]

/-- Closed form of a successful commission deduction by a landlord. -/
theorem deductCommission_owner_true (sess : Session) (b p : String) (r : ℚ)
    (now : ℕ) (s : WalletState) (hown : isOwnerSession sess = true) :
    deductCommission sess true b p r now s = Except.ok
      { account :=
          { walletBalance := cachedBalance sess - r * commissionRate
            accountStatus :=
              if cachedBalance sess - r * commissionRate ≤ -100
              then AccountStatus.suspended else s.account.accountStatus
            lastTransactionDate := now }
        transactions := s.transactions ++
          [{ type := TxType.commission
             amount := -(r * commissionRate)
             description := "commission"
             bookingId := some b
             propertyId := some p
             timestamp := now
             balanceAfter := cachedBalance sess - r * commissionRate }] } := by
  simp [deductCommission, hown]

/-- Closed form of a successful recharge by a landlord. -/
theorem rechargeWallet_owner_true (sess : Session) (a : ℚ) (d : String)
    (now : ℕ) (s : WalletState) (hown : isOwnerSession sess = true) :
    rechargeWallet sess true a d now s = Except.ok
      { account :=
          { walletBalance := cachedBalance sess + a
            accountStatus :=
              if cachedBalance sess + a > 0
              then AccountStatus.active else s.account.accountStatus
            lastTransactionDate := now }
        transactions := s.transactions ++
          [{ type := TxType.recharge
             amount := a
             description := d
             bookingId := none
             propertyId := none
             timestamp := now
             balanceAfter := cachedBalance sess + a }] } := by
  simp [rechargeWallet, hown]

/-- A landlord deduction with a failed store write raises `WriteFailure`. -/
theorem deductCommission_owner_false (sess : Session) (b p : String) (r : ℚ)
    (now : ℕ) (s : WalletState) (hown : isOwnerSession sess = true) :
    deductCommission sess false b p r now s = Except.error WalletError.WriteFailure := by
  simp [deductCommission, hown]

/-- Re-synchronising the cached record does not change who the caller is. -/
theorem isOwnerSession_syncSession (sess : Session) (s : WalletState) :
    isOwnerSession (syncSession sess s) = isOwnerSession sess := by
  rcases sess with ⟨cu, ud⟩
  cases ud <;> simp [syncSession, isOwnerSession]

/-- After re-synchronising, the cached balance is the stored balance. -/
theorem cachedBalance_syncSession (sess : Session) (s : WalletState)
    (hown : isOwnerSession sess = true) :
    cachedBalance (syncSession sess s) = s.account.walletBalance := by
  rcases sess with ⟨cu, ud⟩
  cases ud with
  | none => simp [isOwnerSession] at hown
  | some u => simp [syncSession, cachedBalance]

/-- Patching the cached status does not change who the caller is. -/
theorem isOwnerSession_setCachedStatus (sess : Session)
    (c : Option AccountStatus) :
    isOwnerSession (setCachedStatus sess c) = isOwnerSession sess := by
  rcases sess with ⟨cu, ud⟩
  cases ud <;> simp [setCachedStatus, isOwnerSession]

/-- The facts about one successful landlord deduction that the sequence
argument consumes: the new balance and the freshly appended transaction. -/
theorem deductCommission_owner_facts (sess : Session) (b p : String) (r : ℚ)
    (now : ℕ) (s : WalletState) (hown : isOwnerSession sess = true) :
    ∃ s1, deductCommission sess true b p r now s = Except.ok s1 ∧
      s1.account.walletBalance = cachedBalance sess - r * commissionRate ∧
      ∃ tx, s1.transactions.getLast? = some tx ∧
        tx.balanceAfter = s1.account.walletBalance := by
  rw [deductCommission_owner_true sess b p r now s hown]
  refine ⟨_, rfl, rfl,
    ⟨{ type := TxType.commission
       amount := -(r * commissionRate)
       description := "commission"
       bookingId := some b
       propertyId := some p
       timestamp := now
       balanceAfter := cachedBalance sess - r * commissionRate }, ?_, rfl⟩⟩
  simp [List.getLast?_append_cons s.transactions _ []]

/-- The balance after N consecutive landlord deductions drops by the sum of
the commissions, and the last appended transaction snapshots it. -/
theorem deductCommissionSeq_ok (now : ℕ) (rs : List ℚ) :
    ∀ (sess : Session) (s : WalletState),
      isOwnerSession sess = true →
      cachedBalance sess = s.account.walletBalance →
      ∃ s2, deductCommissionSeq now sess s rs = Except.ok s2 ∧
        s2.account.walletBalance =
          s.account.walletBalance - (rs.map fun r => r * commissionRate).sum ∧
        (rs ≠ [] → ∃ tx, s2.transactions.getLast? = some tx ∧
          tx.balanceAfter = s2.account.walletBalance) := by
  induction rs with
  | nil =>
    intro sess s hown hsync
    exact ⟨s, rfl, by simp, by simp⟩
  | cons r rs ih =>
    intro sess s hown hsync
    obtain ⟨s1, hstep, hb1, hl1⟩ :=
      deductCommission_owner_facts sess "bookingId" "propertyId" r now s hown
    have hown1 : isOwnerSession (syncSession sess s1) = true := by
      rw [isOwnerSession_syncSession]; exact hown
    have hsync1 : cachedBalance (syncSession sess s1) = s1.account.walletBalance :=
      cachedBalance_syncSession sess s1 hown
    obtain ⟨s2, hrun, hbal, hlast⟩ := ih (syncSession sess s1) s1 hown1 hsync1
    refine ⟨s2, ?_, ?_, ?_⟩
    · simp only [deductCommissionSeq, hstep]
      exact hrun
    · rw [hbal, hb1, hsync]
      simp only [List.map_cons, List.sum_cons]
      ring
    · intro _
      by_cases hrs : rs = []
      · subst hrs
        simp only [deductCommissionSeq] at hrun
        obtain rfl : s1 = s2 := by simpa using hrun
        exact hl1
      · exact hlast hrs

/-- A landlord recharge with a failed store write raises `WriteFailure`. -/
theorem rechargeWallet_owner_false (sess : Session) (a : ℚ) (d : String)
    (now : ℕ) (s : WalletState) (hown : isOwnerSession sess = true) :
    rechargeWallet sess false a d now s = Except.error WalletError.WriteFailure := by
  simp [rechargeWallet, hown]

/-- The facts about one successful landlord recharge: the new balance and
the freshly appended transaction. -/
theorem rechargeWallet_owner_facts (sess : Session) (a : ℚ) (d : String)
    (now : ℕ) (s : WalletState) (hown : isOwnerSession sess = true) :
    ∃ s1, rechargeWallet sess true a d now s = Except.ok s1 ∧
      s1.account.walletBalance = cachedBalance sess + a ∧
      ∃ tx, s1.transactions.getLast? = some tx ∧
        tx.balanceAfter = s1.account.walletBalance := by
  rw [rechargeWallet_owner_true sess a d now s hown]
  refine ⟨_, rfl, rfl,
    ⟨{ type := TxType.recharge
       amount := a
       description := d
       bookingId := none
       propertyId := none
       timestamp := now
       balanceAfter := cachedBalance sess + a }, ?_, rfl⟩⟩
  simp [List.getLast?_append_cons s.transactions _ []]

/-- Claim C1: for a landlord whose cached record mirrors the stored account,
N consecutive successful deductCommission calls with rental amounts r1..rN
leave walletBalance at b0 minus the sum of ri times 0.025, and the last
appended transaction snapshots that balance in balanceAfter; more generally
every successful deductCommission or rechargeWallet leaves the last appended
transaction with balanceAfter equal to the updated walletBalance. -/
theorem ledger_balance_after_c1
    (sess : Session) (s : WalletState) (now : ℕ) (rs : List ℚ)
    (hown : isOwnerSession sess = true)
    (hsync : cachedBalance sess = s.account.walletBalance) :
    (∃ s2, deductCommissionSeq now sess s rs = Except.ok s2 ∧
        s2.account.walletBalance =
          s.account.walletBalance - (rs.map fun r => r * commissionRate).sum ∧
        (rs ≠ [] → ∃ tx, s2.transactions.getLast? = some tx ∧
          tx.balanceAfter = s2.account.walletBalance)) ∧
    (∀ (sess2 : Session) (wOk : Bool) (b p : String) (r : ℚ) (n : ℕ)
        (t t2 : WalletState),
      isOwnerSession sess2 = true →
      deductCommission sess2 wOk b p r n t = Except.ok t2 →
      ∃ tx, t2.transactions.getLast? = some tx ∧
        tx.balanceAfter = t2.account.walletBalance) ∧
    (∀ (sess2 : Session) (wOk : Bool) (a : ℚ) (d : String) (n : ℕ)
        (t t2 : WalletState),
      isOwnerSession sess2 = true →
      rechargeWallet sess2 wOk a d n t = Except.ok t2 →
      ∃ tx, t2.transactions.getLast? = some tx ∧
        tx.balanceAfter = t2.account.walletBalance) := by
  refine ⟨deductCommissionSeq_ok now rs sess s hown hsync, ?_, ?_⟩
  · intro sess2 wOk b p r n t t2 h2 hok
    cases wOk with
    | false => rw [deductCommission_owner_false sess2 b p r n t h2] at hok; simp at hok
    | true =>
      obtain ⟨s1, hstep, hb1, hl1⟩ := deductCommission_owner_facts sess2 b p r n t h2
      rw [hstep] at hok
      obtain rfl : s1 = t2 := Except.ok.inj hok
      exact hl1
  · intro sess2 wOk a d n t t2 h2 hok
    cases wOk with
    | false => rw [rechargeWallet_owner_false sess2 a d n t h2] at hok; simp at hok
    | true =>
      obtain ⟨s1, hstep, hb1, hl1⟩ := rechargeWallet_owner_facts sess2 a d n t h2
      rw [hstep] at hok
      obtain rfl : s1 = t2 := Except.ok.inj hok
      exact hl1

/-- Witness for C1 at the scenario of the spec: rentals 120000 then
4000000 from balance 0. -/
theorem ledger_balance_after_c1_w :
    ∃ s2, deductCommissionSeq 1 sessionA walletA [120000, 4000000] = Except.ok s2 ∧
      s2.account.walletBalance =
        walletA.account.walletBalance -
          (([120000, 4000000] : List ℚ).map fun r => r * commissionRate).sum ∧
      (([120000, 4000000] : List ℚ) ≠ [] →
        ∃ tx, s2.transactions.getLast? = some tx ∧
          tx.balanceAfter = s2.account.walletBalance) :=
  (ledger_balance_after_c1 sessionA walletA 1 [120000, 4000000]
    (by rfl) (by rfl)).1

/-- Claim C2: a successful landlord deduction suspends the account exactly
when the new balance is at most -100 and otherwise leaves the status
unchanged; a suspended account stays suspended. -/
theorem deduct_suspension_threshold_c2
    (sess : Session) (b p : String) (r : ℚ) (now : ℕ) (s s2 : WalletState)
    (hown : isOwnerSession sess = true)
    (hsync : cachedBalance sess = s.account.walletBalance)
    (hok : deductCommission sess true b p r now s = Except.ok s2) :
    (s2.account.accountStatus =
      if s.account.walletBalance - r * commissionRate ≤ -100
      then AccountStatus.suspended else s.account.accountStatus) ∧
    (s.account.accountStatus = AccountStatus.suspended →
      s2.account.accountStatus = AccountStatus.suspended) := by
  rw [deductCommission_owner_true sess b p r now s hown] at hok
  obtain rfl : _ = s2 := Except.ok.inj hok
  rw [hsync]
  refine ⟨rfl, fun h => ?_⟩
  split <;> simp [h]

/-- Witness for C2 at the boundary: balance -99, rental 40, commission 1,
new balance exactly -100, account suspended. -/
theorem deduct_suspension_threshold_c2_w :
    ((⟨⟨-100, AccountStatus.suspended, 4⟩,
        [⟨TxType.commission, -1, "commission", some "b", some "p", 4, -100⟩]⟩ :
          WalletState).account.accountStatus =
      if (⟨⟨-99, AccountStatus.active, 3⟩, []⟩ :
            WalletState).account.walletBalance - 40 * commissionRate ≤ -100
      then AccountStatus.suspended
      else (⟨⟨-99, AccountStatus.active, 3⟩, []⟩ :
            WalletState).account.accountStatus) ∧
    ((⟨⟨-99, AccountStatus.active, 3⟩, []⟩ :
        WalletState).account.accountStatus = AccountStatus.suspended →
      (⟨⟨-100, AccountStatus.suspended, 4⟩,
        [⟨TxType.commission, -1, "commission", some "b", some "p", 4, -100⟩]⟩ :
          WalletState).account.accountStatus = AccountStatus.suspended) :=
  deduct_suspension_threshold_c2
    ⟨some "landlord", some ⟨Role.owner, some (-99), some AccountStatus.active⟩⟩
    "b" "p" 40 4 ⟨⟨-99, AccountStatus.active, 3⟩, []⟩
    ⟨⟨-100, AccountStatus.suspended, 4⟩,
      [⟨TxType.commission, -1, "commission", some "b", some "p", 4, -100⟩]⟩
    (by rfl) (by rfl)
    (by norm_num [deductCommission, isOwnerSession, cachedBalance, commissionRate])

/-- Claim C3: a successful landlord recharge reactivates the account exactly
when the new balance is strictly positive and otherwise leaves the status
unchanged. -/
theorem recharge_reactivation_threshold_c3
    (sess : Session) (a : ℚ) (d : String) (now : ℕ) (s s2 : WalletState)
    (hown : isOwnerSession sess = true)
    (hsync : cachedBalance sess = s.account.walletBalance)
    (hok : rechargeWallet sess true a d now s = Except.ok s2) :
    (s2.account.accountStatus =
      if s.account.walletBalance + a > 0
      then AccountStatus.active else s.account.accountStatus) ∧
    (s.account.walletBalance + a ≤ 0 →
      s2.account.accountStatus = s.account.accountStatus) := by
  rw [rechargeWallet_owner_true sess a d now s hown] at hok
  obtain rfl : _ = s2 := Except.ok.inj hok
  rw [hsync]
  refine ⟨rfl, fun h => ?_⟩
  rw [if_neg (by exact absurd · (not_lt.mpr h))]

/-- Witness for C3 at the boundary: balance -100 recharged by 100 reaches
exactly 0 and the account stays suspended. -/
theorem recharge_reactivation_threshold_c3_w :
    ((⟨⟨0, AccountStatus.suspended, 9⟩,
        [⟨TxType.recharge, 100, "top up", none, none, 9, 0⟩]⟩ :
          WalletState).account.accountStatus =
      if (⟨⟨-100, AccountStatus.suspended, 5⟩, []⟩ :
            WalletState).account.walletBalance + 100 > 0
      then AccountStatus.active
      else (⟨⟨-100, AccountStatus.suspended, 5⟩, []⟩ :
            WalletState).account.accountStatus) ∧
    ((⟨⟨-100, AccountStatus.suspended, 5⟩, []⟩ :
        WalletState).account.walletBalance + 100 ≤ 0 →
      (⟨⟨0, AccountStatus.suspended, 9⟩,
        [⟨TxType.recharge, 100, "top up", none, none, 9, 0⟩]⟩ :
          WalletState).account.accountStatus =
        (⟨⟨-100, AccountStatus.suspended, 5⟩, []⟩ :
          WalletState).account.accountStatus) :=
  recharge_reactivation_threshold_c3
    ⟨some "landlord", some ⟨Role.owner, some (-100), some AccountStatus.suspended⟩⟩
    100 "top up" 9 ⟨⟨-100, AccountStatus.suspended, 5⟩, []⟩
    ⟨⟨0, AccountStatus.suspended, 9⟩,
      [⟨TxType.recharge, 100, "top up", none, none, 9, 0⟩]⟩
    (by rfl) (by rfl)
    (by norm_num [rechargeWallet, isOwnerSession, cachedBalance])

/-- Claim C9: checkAccountStatus answers true for every non-landlord caller;
for a landlord whose stored record exists it answers true exactly when the
stored status is active; and its answer only depends on the fresh store
read, never on the cached status. -/
theorem check_account_status_c9 :
    (∀ (sess : Session) (store : Option Account),
      sess.userData.map UserData.role ≠ some Role.owner →
      checkAccountStatus sess store = true) ∧
    (∀ (sess : Session) (a : Account),
      isOwnerSession sess = true →
      (checkAccountStatus sess (some a) = true ↔
        a.accountStatus = AccountStatus.active)) ∧
    (∀ (sess : Session) (store : Option Account) (c : Option AccountStatus),
      checkAccountStatus (setCachedStatus sess c) store =
        checkAccountStatus sess store) := by
  refine ⟨?_, ?_, ?_⟩
  · intro sess store h
    have hno : isOwnerSession sess = false := by
      simp [isOwnerSession, h]
    simp [checkAccountStatus, hno]
  · intro sess a hown
    simp [checkAccountStatus, hown]
  · intro sess store c
    simp [checkAccountStatus, isOwnerSession_setCachedStatus]

/-- Claim C10: when the caller is unauthenticated or not a landlord, both
wallet operations resolve successfully without touching the state. -/
theorem wallet_guard_noop_c10 (sess : Session)
    (hno : isOwnerSession sess = false) :
    (∀ (wOk : Bool) (b p : String) (r : ℚ) (now : ℕ) (s : WalletState),
      deductCommission sess wOk b p r now s = Except.ok s) ∧
    (∀ (wOk : Bool) (a : ℚ) (d : String) (now : ℕ) (s : WalletState),
      rechargeWallet sess wOk a d now s = Except.ok s) := by
  constructor
  · intro wOk b p r now s
    simp [deductCommission, hno]
  · intro wOk a d now s
    simp [rechargeWallet, hno]

/-- Witness for C10: a renter triggering both operations leaves the ledger
untouched and gets a resolved result. -/
theorem wallet_guard_noop_c10_w :
    deductCommission sessionR true "b" "p" 40 5 walletA = Except.ok walletA ∧
    rechargeWallet sessionR false (-7) "d" 5 walletA = Except.ok walletA :=
  ⟨(wallet_guard_noop_c10 sessionR (by rfl)).1 true "b" "p" 40 5 walletA,
   (wallet_guard_noop_c10 sessionR (by rfl)).2 false (-7) "d" 5 walletA⟩

/-- Claim C4: in the confirmation step of the acceptance flow the commission
deduction runs before any write to the booking record: when the deduction
fails the whole state — the booking included — is unchanged and the error is
surfaced, and the accepted outcome is only reachable when the deduction
succeeded. -/
theorem accept_requires_deduct_c4
    (sess : Session) (bOk : Bool) (st : SysState) (b : Booking) (now : ℕ)
    (hown : isOwnerSession sess = true)
    (hamt : truthyAmount b.rentalAmount = true) :
    confirmBookingAcceptance sess false bOk st (some b) now =
      (st, ConfirmResult.errorCaught) ∧
    (∀ wOk : Bool,
      (confirmBookingAcceptance sess wOk bOk st (some b) now).2 =
          ConfirmResult.acceptedOk →
      wOk = true) := by
  have hfail : confirmBookingAcceptance sess false bOk st (some b) now =
      (st, ConfirmResult.errorCaught) := by
    simp [confirmBookingAcceptance, hamt,
      deductCommission_owner_false sess b.id b.propertyId (b.rentalAmount.getD 0)
        now st.wallet hown]
  refine ⟨hfail, ?_⟩
  intro wOk h
  cases wOk with
  | true => rfl
  | false => rw [hfail] at h; simp at h

/-- Witness for C4: a failing store write leaves the pending booking of
`sysA` untouched and surfaces the error. -/
theorem accept_requires_deduct_c4_w :
    confirmBookingAcceptance sessionA false true sysA (some bookingA) 2 =
      (sysA, ConfirmResult.errorCaught) ∧
    (∀ wOk : Bool,
      (confirmBookingAcceptance sessionA wOk true sysA (some bookingA) 2).2 =
          ConfirmResult.acceptedOk →
      wOk = true) :=
  accept_requires_deduct_c4 sessionA true sysA bookingA 2 (by rfl)
    (by norm_num [truthyAmount, bookingA])

/-- Claim C5: when checkAccountStatus answers false, an accept attempt
aborts with the suspended-account outcome and the whole state — bookings,
account and transaction log — is unchanged. -/
theorem suspended_guard_aborts_c5
    (sess : Session) (bOk : Bool) (st : SysState) (bookingId : String)
    (hchk : checkAccountStatus sess (some st.wallet.account) = false) :
    handleBookingAction sess bOk st bookingId BookingAction.accepted =
      (st, BookingActionResult.suspendedAbort) := by
  simp [handleBookingAction, hchk]

/-- Witness for C5: the suspended landlord of `sessionS` cannot accept the
pending booking of `sysS`. -/
theorem suspended_guard_aborts_c5_w :
    handleBookingAction sessionS true sysS "bk1" BookingAction.accepted =
      (sysS, BookingActionResult.suspendedAbort) :=
  suspended_guard_aborts_c5 sessionS true sysS "bk1" (by rfl)

/-- Claim C7: a reject action only writes the rejected status into the
booking store: the wallet — balance, status, last transaction date and the
transaction log — is untouched and no guard is consulted, whatever the
session, the account state or the linked property price. -/
theorem reject_pure_frame_c7 (sess : Session) (st : SysState)
    (bookingId : String) :
    handleBookingAction sess true st bookingId BookingAction.rejected =
      ({ st with
          bookings := setBookingStatus st.bookings bookingId
            BookingStatus.rejected },
        BookingActionResult.updated) := rfl

/-- Claim C8: a deleted property or a missing monthly price resolves the
rental amount to 0, and accepting such a booking with a healthy account
writes the accepted status directly: no commission, no transaction, no
wallet change and no error. -/
theorem missing_property_fallback_c8 :
    resolveRentalAmount none = 0 ∧
    (∀ p : Property, p.pricePerMonth = none → resolveRentalAmount (some p) = 0) ∧
    (∀ (sess : Session) (st : SysState) (bookingId : String) (b : Booking),
      st.bookings.find? (fun bb => bb.id == bookingId) = some b →
      b.rentalAmount = some 0 →
      checkAccountStatus sess (some st.wallet.account) = true →
      cachedSuspended sess = false →
      handleBookingAction sess true st bookingId BookingAction.accepted =
        ({ st with
            bookings := setBookingStatus st.bookings bookingId
              BookingStatus.accepted },
          BookingActionResult.updated)) := by
  refine ⟨rfl, fun p hp => ?_, ?_⟩
  · simp [resolveRentalAmount, hp]
  · intro sess st bookingId b hfind hamt hchk hcs
    simp [handleBookingAction, hfind, hchk, hcs, truthyAmount, hamt,
      BookingAction.toStatus]

/-- Counterexample for C6: rechargeWallet itself does not validate the
amount — a landlord call with amount -5 resolves successfully, appends a
recharge transaction and moves the balance to -5. -/
theorem recharge_no_validation_c6_cex :
    rechargeWallet ⟨some "landlord", some ⟨Role.owner, some 0, some AccountStatus.active⟩⟩
        true (-5) "refund" 6 ⟨⟨0, AccountStatus.active, 0⟩, []⟩
      = Except.ok ⟨⟨-5, AccountStatus.active, 6⟩,
          [⟨TxType.recharge, -5, "refund", none, none, 6, -5⟩]⟩ := by
  norm_num [rechargeWallet, isOwnerSession, cachedBalance]

/-- Claim C6 (amended): the amount > 0 requirement is enforced by the UI
recharge flow handleRecharge, which rejects an unparseable or non-positive
amount with the invalid-amount error before any call to rechargeWallet, so
on that path nothing is written; rechargeWallet itself performs no amount
validation. -/
theorem recharge_ui_rejects_nonpositive_c6
    (sess : Session) (wOk : Bool) (parsed : Option ℚ) (now : ℕ)
    (s : WalletState)
    (hbad : parsed = none ∨ ∃ a, parsed = some a ∧ a ≤ 0) :
    handleRecharge sess wOk parsed now s = RechargeUIResult.invalidAmount := by
  rcases hbad with h | ⟨a, rfl, ha⟩
  · subst h; rfl
  · simp [handleRecharge, ha]

/-- Witness for C6 (amended): recharging -3 through the UI flow is rejected
before any write. -/
theorem recharge_ui_rejects_nonpositive_c6_w :
    handleRecharge sessionA true (some (-3)) 2 walletA =
      RechargeUIResult.invalidAmount :=
  recharge_ui_rejects_nonpositive_c6 sessionA true (some (-3)) 2 walletA
    (Or.inr ⟨-3, rfl, by norm_num⟩)

end ArabiRentHome
